import Mathlib

/-!
Shallow embedding of the news-classification aggregation module of
`src/testebabifornt.py` (functions `analyze_categories`, `analyze_sources`,
`analyze_time_trends`, `create_wordcloud`, `get_ai_response`), together with
theorems settling the specification claims about it.

Modelling conventions:
* A pandas cell is `Option String`; `none` is `NaN` (a missing value).
* A `DataFrame` is a list of rows plus one Boolean per column recording
  whether that column is present, plus the dtype flag pandas keeps for the
  `data` column (`dataIsDatetime`).  `analyze_categories` and
  `analyze_time_trends` mutate the frame they are given, so they return the
  updated frame alongside their result.
* `pd.Series.value_counts` is modelled up to ordering (pandas orders the
  result by descending count; no claim below depends on that order), as the
  list of distinct non-`NaN` values paired with their multiplicities.
* `pd.to_datetime` is modelled by `parseDate`, restricted to the ISO
  `YYYY-MM-DD` shape used by the repository's data; any other string is
  unparsable and makes `pd.to_datetime` raise, which the source catches.
  A converted (datetime64) cell holds the parsed triple (`Sum.inr`), an
  unconverted cell holds the raw string (`Sum.inl`).
* Python's `str.lower` is `String.toLower` (ASCII range); the regex
  `\b\w+\b` of `re.findall` is modelled by the maximal runs of
  word characters (`isAlphanum` or underscore), an ASCII approximation of
  the Unicode word class — no claim depends on the exact alphabet.
* `WordCloud.generate` raises `ValueError` when given zero words, which the
  source catches and turns into `None`; its internal re-tokenisation for
  rendering is not modelled, as no claim concerns the rendered cloud.
* The NLTK Portuguese stop-word list and the OpenAI chat completion are
  external data / services, passed as parameters (`stop_words`, `chat`).
-/

/-- A pandas cell: `none` models `NaN`. -/
abbrev Cell := Option String

/-- A calendar day as produced by the modelled `pd.to_datetime`: (year, month, day). -/
abbrev Date := Nat × Nat × Nat

/-- A cell of the `data` column: a raw string before conversion
(`Sum.inl`), a parsed datetime value after conversion (`Sum.inr`). -/
abbrev DateCell := Sum String Date

/-- One row of the news table, with the columns the aggregation code touches
(`data`, `titulo`, `fonte`, `categoria_babi`) plus the `categoria_principal`
column that `analyze_categories` writes.  Field values are meaningful only
when the corresponding column-presence flag of the frame is set. -/
structure Row where
  data : Option DateCell
  titulo : Cell
  fonte : Cell
  categoria_babi : Cell
  categoria_principal : Cell
deriving Repr, DecidableEq

/-- A pandas DataFrame: column-presence flags, the dtype flag of the `data`
column, and the rows. -/
structure DataFrame where
  hasData : Bool
  hasTitulo : Bool
  hasFonte : Bool
  hasCategoriaBabi : Bool
  hasCategoriaPrincipal : Bool
  dataIsDatetime : Bool
  rows : List Row
deriving Repr, DecidableEq

/-- Multiplicity tally of a list: each distinct element paired with its
number of occurrences (ordering not meaningful, see the header comment). -/
def tally {α : Type} [DecidableEq α] (l : List α) : List (α × Nat) :=
  l.dedup.map fun v => (v, l.count v)

/-- Model of `pd.Series.value_counts()`: tallies the non-`NaN` values of a
column (pandas drops `NaN` by default). -/
def value_counts (l : List Cell) : List (String × Nat) :=
  tally (l.filterMap id)

/-- Sum of the counts of a tally, i.e. `counts["Contagem"].sum()`. -/
def countSum {α : Type} (cc : List (α × Nat)) : Nat :=
  (cc.map Prod.snd).sum

/-- Model of the pandas string accessor `.str[0]` (line 68): the first
character of a string as a one-character string; `NaN` on the empty string
and on `NaN`. -/
def strGet0 : Cell → Cell
  | none => none
  | some s => if s = "" then none else some (s.take 1)

/-- Embedding of `analyze_categories` (lines 64–79).  When the
`categoria_babi` column is present it writes the `categoria_principal`
column (`df["categoria_principal"] = df["categoria_babi"].str[0]`) — a
mutation of the input frame — and returns the value counts of the principal
categories and of the subcategories; otherwise it returns `(None, None)`.
The `reset_index` / column renaming of the source is presentation only and
is not modelled. -/
def analyze_categories (df : DataFrame) :
    (Option (List (String × Nat)) × Option (List (String × Nat))) × DataFrame :=
  if df.hasCategoriaBabi then
    let rows := df.rows.map fun r =>
      { r with categoria_principal := strGet0 r.categoria_babi }
    let df := { df with rows := rows, hasCategoriaPrincipal := true }
    ((some (value_counts (df.rows.map (·.categoria_principal))),
      some (value_counts (df.rows.map (·.categoria_babi)))), df)
  else ((none, none), df)

/-- Embedding of `analyze_sources` (lines 81–87): value counts of the
`fonte` column when present, `None` otherwise.  No mutation. -/
def analyze_sources (df : DataFrame) : Option (List (String × Nat)) :=
  if df.hasFonte then some (value_counts (df.rows.map (·.fonte))) else none

/-- Splitting a character list on the separator `-` (the segments of
`s.split("-")`). -/
def splitDash : List Char → List (List Char)
  | [] => [[]]
  | c :: cs =>
    let r := splitDash cs
    if c = '-' then [] :: r
    else
      match r with
      | h :: t => (c :: h) :: t
      | [] => [[c]]

/-- The numeric value of a non-empty all-digit segment, `none` otherwise. -/
def digitsToNat? (l : List Char) : Option Nat :=
  if l ≠ [] ∧ l.all Char.isDigit then
    some (l.foldl (fun n c => n * 10 + (c.toNat - 48)) 0)
  else none

/-- Model of `pd.to_datetime` parsing of one date string, restricted to the
ISO `YYYY-MM-DD` shape used by the repository's data; any other shape is
unparsable (`none`, i.e. `pd.to_datetime` raises on it). -/
def parseDate (s : String) : Option Date :=
  match splitDash s.data with
  | [y, m, d] =>
    match digitsToNat? y, digitsToNat? m, digitsToNat? d with
    | some yv, some mv, some dv => some (yv, mv, dv)
    | _, _, _ => none
  | _ => none

/-- The day a `data` cell falls on: parsed on demand for raw cells,
immediate for converted cells; `none` for `NaT`. -/
def cellDate : Option DateCell → Option Date
  | none => none
  | some (Sum.inl s) => parseDate s
  | some (Sum.inr d) => some d

/-- Grouping step of `analyze_time_trends` (line 98):
`df.groupby([pd.Grouper(key="data", freq="D"), 'categoria_principal']).size()`.
Rows whose day is `NaT` or whose `categoria_principal` is `NaN` are dropped
(pandas drops `NaN`/`NaT` group keys); the remaining `(day, facet)` pairs
are tallied.  Requires the `categoria_principal` column, raising `KeyError`
(`none`) otherwise.  pandas orders the groups by key; the ordering is not
modelled, as no claim depends on it. -/
def trendOf (df : DataFrame) : Option (List ((Date × String) × Nat)) :=
  if df.hasCategoriaPrincipal then
    some (tally (df.rows.filterMap fun r =>
      match cellDate r.data, r.categoria_principal with
      | some d, some c => some (d, c)
      | _, _ => none))
  else none

/-- Embedding of `analyze_time_trends` (lines 89–103).  When the `data`
column is present and not yet of datetime dtype, `pd.to_datetime` converts
it in place — raising (caught, result `None`, frame unchanged) as soon as
any present cell is unparsable, and otherwise rewriting the column
(a mutation of the input frame) and setting its dtype flag.  The grouping
then needs the `categoria_principal` column; if it is missing, the
`KeyError` is caught and the result is `None` (the dtype mutation
persists).  `rawDateUnparsable` is the per-cell test for a present but
unparsable raw date (what makes `pd.to_datetime` raise). -/
def rawDateUnparsable (r : Row) : Bool :=
  match r.data with
  | some (Sum.inl s) => (parseDate s).isNone
  | _ => false

/-- Embedding of `analyze_time_trends`, continued: the conversion applies
`cellDate` to every cell and stores the datetime value. -/
def analyze_time_trends (df : DataFrame) :
    Option (List ((Date × String) × Nat)) × DataFrame :=
  if df.hasData then
    if df.dataIsDatetime then (trendOf df, df)
    else if df.rows.any rawDateUnparsable then
      (none, df)
    else
      let df := { df with
        dataIsDatetime := true,
        rows := df.rows.map fun r =>
          { r with data := (cellDate r.data).map Sum.inr } }
      (trendOf df, df)
  else (none, df)

/-- Model of `pd.Series.astype(str)` on one cell: `NaN` renders as the
string `"nan"` (line 116). -/
def astypeStr : Cell → String
  | none => "nan"
  | some s => s

/-- A word character for the modelled regex `\b\w+\b`: letters, digits or
underscore (ASCII approximation of the Unicode word class — no claim
depends on the exact alphabet). -/
def isWordChar (c : Char) : Bool :=
  c.isAlphanum || c = '_'

/-- Accumulates the maximal runs of word characters of a character list:
returns the run currently open at the front plus the later completed runs
(all completed runs are non-empty). -/
def wordRunsAux : List Char → List Char × List (List Char)
  | [] => ([], [])
  | c :: cs =>
    let acc := wordRunsAux cs
    if isWordChar c then (c :: acc.1, acc.2)
    else ([], if acc.1 = [] then acc.2 else acc.1 :: acc.2)

/-- Model of `re.findall(r"\b\w+\b", text)` (line 120): the maximal
non-empty runs of word characters, in order. -/
def findallWords (s : String) : List String :=
  let acc := wordRunsAux s.data
  (if acc.1 = [] then acc.2 else acc.1 :: acc.2).map fun l => String.mk l

/-- Model of Python's `str.lower()` (ASCII range): `String.toLower` written
as a structural map over the characters, so that it evaluates inside the
kernel (`String.map` itself is defined by well-founded recursion); the
theorem `string_toLower_mk` below proves it equal to `String.toLower`. -/
def pyLower (s : String) : String :=
  String.mk (s.data.map Char.toLower)

/-- Embedding of the word-list comprehension of `create_wordcloud`
(lines 120–121): `[word.lower() for word in re.findall(r"\b\w+\b", all_text)
if word.lower() not in stop_words]`. -/
def buildWords (stop_words : List String) (all_text : String) : List String :=
  (findallWords all_text).filterMap fun w =>
    if pyLower w ∈ stop_words then none else some (pyLower w)

/-- Embedding of `create_wordcloud` (lines 105–130) with the default column
`titulo`.  The column's cells are rendered with `astype(str)` and joined
with spaces; the word list is built as in the source; `WordCloud.generate`
raises `ValueError` on an empty word list, which the `except` turns into
`None`.  The result is the word list handed to `generate` (the rendered
cloud itself is a drawing and is not modelled).  The stop-word list
(`stopwords.words("portuguese")`, external NLTK data) is a parameter. -/
def create_wordcloud (stop_words : List String) (df : DataFrame) :
    Option (List String) :=
  if df.hasTitulo then
    let all_text := String.intercalate " " (df.rows.map fun r => astypeStr r.titulo)
    let words := buildWords stop_words all_text
    if words = [] then none else some words
  else none

/-- The fixed instruction returned by `get_ai_response` when no API key is
configured (line 137). -/
def apiKeyMsg : String :=
  "Por favor, configure sua chave de API nas configurações."

/-- The system prompt of `get_ai_response` (lines 141–151), kept abstract as
an opaque-to-the-claims constant string: no claim depends on its text. -/
def babiSystemPrompt : String :=
  "Você é um assistente especializado em analisar dados de notícias categorizadas pelo método BABI."

/-- The user prompt assembled by `get_ai_response` (line 153):
`f"Contexto dos dados:\n{context}\n\nPergunta: {prompt}"`. -/
def fullPrompt (prompt context : String) : String :=
  "Contexto dos dados:\n" ++ context ++ "\n\nPergunta: " ++ prompt

/-- The chat-completion service (`openai.ChatCompletion.create` followed by
`response.choices[0].message.content`): given system and user messages it
either returns the content string or raises an exception rendered as a
string. -/
abbrev ChatService := String → String → Except String String

/-- Embedding of `get_ai_response` (lines 133–167).  The whole body is in a
`try`: an empty (falsy) API key returns the fixed instruction before any
network call; any exception of the chat call is caught and rendered as
`f"Erro ao comunicar com a API: {e}"`.  The function is total: it always
returns a string. -/
def get_ai_response (prompt context api_key : String) (chat : ChatService) :
    String :=
  if api_key = "" then apiKeyMsg
  else
    match chat babiSystemPrompt (fullPrompt prompt context) with
    | Except.ok content => content
    | Except.error e => "Erro ao comunicar com a API: " ++ e

/-- Concrete sample frames used by witnesses and counterexamples. -/
def sampleRow (d : Option String) (t f cb : Cell) : Row :=
  { data := d.map Sum.inl, titulo := t, fonte := f, categoria_babi := cb,
    categoria_principal := none }

/-- A one-record table with a well-formed record (`B1`, parsable date). -/
def dfB1 : DataFrame :=
  { hasData := true, hasTitulo := true, hasFonte := true,
    hasCategoriaBabi := true, hasCategoriaPrincipal := false,
    dataIsDatetime := false,
    rows := [sampleRow (some "2024-02-01") (some "Economia em alta")
      (some "G1") (some "B1")] }

/-- The empty table: all columns present, zero records. -/
def dfEmpty : DataFrame :=
  { dfB1 with rows := [] }

/-- A three-record table whose third record has an unparsable date and
whose `categoria_principal` column is present. -/
def rowDT (d : Option String) (cp : Cell) : Row :=
  { data := d.map Sum.inl, titulo := none, fonte := none,
    categoria_babi := none, categoria_principal := cp }

/-- Table for the C4 counterexample: two parsable dates, one unparsable. -/
def dfBadDate : DataFrame :=
  { hasData := true, hasTitulo := true, hasFonte := true,
    hasCategoriaBabi := true, hasCategoriaPrincipal := true,
    dataIsDatetime := false,
    rows := [rowDT (some "2024-02-01") (some "B"),
      rowDT (some "2024-02-02") (some "A"),
      rowDT (some "not-a-date") (some "I")] }

/-- Table with only parsable dates and the `categoria_principal` column. -/
def dfGood : DataFrame :=
  { dfBadDate with
    rows := [rowDT (some "2024-02-01") (some "B"),
      rowDT (some "2024-02-02") (some "A")] }

/-- Table whose only record has the lower-case classification code `b1`. -/
def dfLowerB : DataFrame :=
  { dfB1 with rows := [sampleRow (some "2024-02-01") none none (some "b1")] }

/-- Table whose only record has the empty classification code. -/
def dfEmptyCode : DataFrame :=
  { dfB1 with rows := [sampleRow (some "2024-02-01") none none (some "")] }

/-- Table whose only record has an absent (`NaN`) source. -/
def dfNoFonte : DataFrame :=
  { dfB1 with rows := [sampleRow none none none none] }

/-- A chat service that always raises. -/
def chatBoom : ChatService := fun _ _ => Except.error "boom"

/-- The counts of a tally sum to the length of the tallied list. -/
theorem tally_sum {α : Type} [DecidableEq α] (l : List α) :
    ((tally l).map Prod.snd).sum = l.length := by
  simpa [tally, Function.comp] using List.sum_map_count_dedup_eq_length l

/-- Every value occurring in a list appears in its tally with its
multiplicity. -/
theorem tally_mem {α : Type} [DecidableEq α] {l : List α} {v : α} (h : v ∈ l) :
    (v, l.count v) ∈ tally l := by
  exact List.mem_map.2 ⟨v, List.mem_dedup.2 h, rfl⟩

/-- Every entry of a tally is a value of the list with its multiplicity. -/
theorem tally_key {α : Type} [DecidableEq α] {l : List α} {p : α × Nat}
    (h : p ∈ tally l) : p.1 ∈ l ∧ p.2 = l.count p.1 := by
  rcases List.mem_map.1 h with ⟨v, hv, he⟩
  cases he
  exact ⟨List.mem_dedup.1 hv, rfl⟩

/-- The non-`NaN` entries of a column, as counted by `countP`. -/
theorem length_filterMap_id (l : List Cell) :
    (l.filterMap id).length = l.countP (·.isSome) := by
  induction l with
  | nil => rfl
  | cons c cs ih => cases c <;> simp [List.filterMap_cons, List.countP_cons, ih]

/-- Membership in the non-`NaN` entries of a column. -/
theorem mem_filterMap_id {l : List Cell} {s : String} :
    s ∈ l.filterMap id ↔ some s ∈ l := by
  simp [List.mem_filterMap]

/-- The counts of `value_counts` sum to the number of non-`NaN` cells. -/
theorem value_counts_sum (l : List Cell) :
    countSum (value_counts l) = l.countP (·.isSome) := by
  rw [countSum, value_counts, tally_sum, length_filterMap_id]

/-- Every key of `value_counts` is a value present in the column. -/
theorem value_counts_key {l : List Cell} {p : String × Nat}
    (h : p ∈ value_counts l) : some p.1 ∈ l := by
  exact mem_filterMap_id.1 (tally_key h).1

/-- `strGet0` yields a value exactly on non-`NaN`, non-empty cells. -/
theorem strGet0_isSome (c : Cell) :
    (strGet0 c).isSome = true ↔ c ≠ none ∧ c ≠ some "" := by
  cases c with
  | none => simp [strGet0]
  | some s =>
    by_cases h : s = "" <;> simp [strGet0, h]

/-- Conversion of a valid code point round-trips through `Char.ofNat`. -/
theorem char_toNat_ofNat (m : Nat) (h : m.isValidChar) :
    (Char.ofNat m).toNat = m := by
  simp [Char.ofNat, h, Char.ofNatAux, Char.toNat, UInt32.ofNat', UInt32.toNat,
    BitVec.toNat_ofNatLt]

/-- `Char.toLower` is idempotent. -/
theorem char_toLower_idem (c : Char) : c.toLower.toLower = c.toLower := by
  unfold Char.toLower
  by_cases h : c.toNat ≥ 65 ∧ c.toNat ≤ 90
  · have hv : (c.toNat + 32).isValidChar := by
      left
      have := h.2
      omega
    rw [if_pos h, char_toNat_ofNat _ hv, if_neg (by omega)]
  · rw [if_neg h, if_neg h]

/-- The characters of a lower-cased string. -/
theorem string_toLower_data (s : String) :
    s.toLower.data = s.data.map Char.toLower := by
  simp [String.toLower, String.map_eq]

/-- `String.toLower` is idempotent. -/
theorem string_toLower_idem (s : String) : s.toLower.toLower = s.toLower := by
  apply String.ext
  rw [string_toLower_data, string_toLower_data, List.map_map]
  exact List.map_congr_left fun c _ => char_toLower_idem c

/-- `String.toLower` agrees with the structural `pyLower`. -/
theorem string_toLower_mk (s : String) : s.toLower = pyLower s := by
  simp [String.toLower, String.map_eq, pyLower]

/-- Lower-casing a non-empty string yields a non-empty string. -/
theorem string_toLower_ne_empty {s : String} (h : s ≠ "") : s.toLower ≠ "" := by
  intro he
  apply h
  apply String.ext
  have := congrArg String.data he
  rw [string_toLower_data] at this
  simpa using this

/-- Every completed run produced by `wordRunsAux` is non-empty. -/
theorem wordRunsAux_ne_nil :
    ∀ (l : List Char) (r : List Char), r ∈ (wordRunsAux l).2 → r ≠ [] := by
  intro l
  induction l with
  | nil =>
    intro r hr
    simp [wordRunsAux] at hr
  | cons c cs ih =>
    intro r hr
    simp only [wordRunsAux] at hr
    by_cases hc : isWordChar c
    · rw [if_pos hc] at hr
      exact ih r hr
    · rw [if_neg hc] at hr
      by_cases h1 : (wordRunsAux cs).1 = []
      · rw [if_pos h1] at hr
        exact ih r hr
      · rw [if_neg h1] at hr
        rcases List.mem_cons.1 hr with h | h
        · rw [h]; exact h1
        · exact ih r h

/-- `findallWords` never produces the empty token. -/
theorem findallWords_ne_empty {s : String} {w : String}
    (h : w ∈ findallWords s) : w ≠ "" := by
  rw [findallWords] at h
  rcases List.mem_map.1 h with ⟨l, hl, he⟩
  have hln : l ≠ [] := by
    by_cases h1 : (wordRunsAux s.data).1 = []
    · rw [if_pos h1] at hl
      exact wordRunsAux_ne_nil _ _ hl
    · rw [if_neg h1] at hl
      rcases List.mem_cons.1 hl with h2 | h2
      · rw [h2]; exact h1
      · exact wordRunsAux_ne_nil _ _ h2
  intro hw
  apply hln
  rw [← he] at hw
  simpa using congrArg String.data hw

/-- Membership in the word list of `create_wordcloud`: each output token is
the lower-casing of some matched word and survives the stop-word filter. -/
theorem mem_buildWords {sw : List String} {text : String} {t : String}
    (h : t ∈ buildWords sw text) :
    ∃ w ∈ findallWords text, pyLower w ∉ sw ∧ t = pyLower w := by
  rw [buildWords] at h
  rcases List.mem_filterMap.1 h with ⟨w, hw, he⟩
  by_cases hs : pyLower w ∈ sw
  · rw [if_pos hs] at he
    cases he
  · rw [if_neg hs] at he
    exact ⟨w, hw, hs, (Option.some.injEq _ _ ▸ he).symm⟩

/-- `pyLower` is idempotent. -/
theorem pyLower_idem (s : String) : pyLower (pyLower s) = pyLower s := by
  rw [pyLower, pyLower, List.map_map]
  exact congrArg String.mk (List.map_congr_left fun c _ => char_toLower_idem c)

/-- `pyLower` of a non-empty string is non-empty. -/
theorem pyLower_ne_empty {s : String} (h : s ≠ "") : pyLower s ≠ "" := by
  intro he
  apply h
  apply String.ext
  have := congrArg String.data he
  rw [pyLower] at this
  simpa using this

/-- C1: for every input table (with the classification column present), the
facet counts of `analyze_categories` sum to at most the number of records,
with equality exactly when every record has a non-empty (and non-`NaN`)
`categoria_babi`. -/
theorem C1_facet_sum_le (df : DataFrame) (h : df.hasCategoriaBabi = true) :
    ∃ cc, (analyze_categories df).1.1 = some cc ∧
      countSum cc ≤ df.rows.length ∧
      (countSum cc = df.rows.length ↔
        ∀ r ∈ df.rows, r.categoria_babi ≠ none ∧ r.categoria_babi ≠ some "") := by
  have hmap :
      ((df.rows.map fun r =>
          { r with categoria_principal := strGet0 r.categoria_babi }).map
        (·.categoria_principal)) =
      df.rows.map fun r => strGet0 r.categoria_babi := by
    rw [List.map_map]
    rfl
  refine ⟨value_counts (df.rows.map fun r => strGet0 r.categoria_babi), ?_, ?_, ?_⟩
  · simp [analyze_categories, h, hmap]
  · rw [value_counts_sum, List.countP_map]
    exact List.countP_le_length _
  · rw [value_counts_sum, List.countP_map]
    constructor
    · intro he r hr
      have := List.countP_eq_length.1 he r hr
      exact (strGet0_isSome r.categoria_babi).1 (by simpa using this)
    · intro ha
      apply List.countP_eq_length.2
      intro r hr
      simpa using (strGet0_isSome r.categoria_babi).2 (ha r hr)

/-- Witness for C1 at the concrete table `dfB1`. -/
theorem C1_facet_sum_le_witness :
    dfB1.hasCategoriaBabi = true ∧
    ∃ cc, (analyze_categories dfB1).1.1 = some cc ∧
      countSum cc ≤ dfB1.rows.length ∧
      (countSum cc = dfB1.rows.length ↔
        ∀ r ∈ dfB1.rows, r.categoria_babi ≠ none ∧ r.categoria_babi ≠ some "") :=
  ⟨rfl, C1_facet_sum_le dfB1 rfl⟩

/-- C2 counterexample: `analyze_categories` does not leave its input table
identical — on `dfB1` it adds the `categoria_principal` column. -/
theorem C2_readonly_cex : (analyze_categories dfB1).2 ≠ dfB1 := by
  decide

/-- C2 amended: `analyze_sources` and `create_wordcloud` read the table
without touching it, but `analyze_categories` writes the
`categoria_principal` column and `analyze_time_trends` rewrites the `data`
column to datetime dtype; each leaves every other column's values and every
other column-presence flag unchanged. -/
theorem C2_readonly_amended (df : DataFrame) :
    (((analyze_categories df).2).rows.map fun r =>
        (r.data, r.titulo, r.fonte, r.categoria_babi)) =
      (df.rows.map fun r => (r.data, r.titulo, r.fonte, r.categoria_babi)) ∧
    ((analyze_categories df).2.hasData, (analyze_categories df).2.hasTitulo,
      (analyze_categories df).2.hasFonte,
      (analyze_categories df).2.hasCategoriaBabi,
      (analyze_categories df).2.dataIsDatetime) =
      (df.hasData, df.hasTitulo, df.hasFonte, df.hasCategoriaBabi,
        df.dataIsDatetime) ∧
    (((analyze_time_trends df).2).rows.map fun r =>
        (r.titulo, r.fonte, r.categoria_babi, r.categoria_principal)) =
      (df.rows.map fun r =>
        (r.titulo, r.fonte, r.categoria_babi, r.categoria_principal)) ∧
    ((analyze_time_trends df).2.hasData, (analyze_time_trends df).2.hasTitulo,
      (analyze_time_trends df).2.hasFonte,
      (analyze_time_trends df).2.hasCategoriaBabi,
      (analyze_time_trends df).2.hasCategoriaPrincipal) =
      (df.hasData, df.hasTitulo, df.hasFonte, df.hasCategoriaBabi,
        df.hasCategoriaPrincipal) := by
  refine ⟨?_, ?_, ?_, ?_⟩
  · by_cases h : df.hasCategoriaBabi <;>
      simp [analyze_categories, h, List.map_map, Function.comp]
  · by_cases h : df.hasCategoriaBabi <;> simp [analyze_categories, h]
  · simp only [analyze_time_trends]
    split_ifs <;> simp [List.map_map, Function.comp]
  · simp only [analyze_time_trends]
    split_ifs <;> simp

/-- C3 counterexample: the operations are not independent of invocation
order — on `dfB1` the time trend is absent when computed directly, but
present once `analyze_categories` has been invoked on the table first
(the grouping needs the `categoria_principal` column that
`analyze_categories` writes). -/
theorem C3_commute_cex :
    (analyze_time_trends dfB1).1 = none ∧
    (analyze_time_trends (analyze_categories dfB1).2).1 =
      some [(((2024, 2, 1), "B"), 1)] := by
  exact ⟨rfl, rfl⟩

/-- C3 amended: facet/subcategory counts, source counts and the word list
are unaffected by the other operations' mutations of the table, but the
time trend is order-dependent: on a table whose `categoria_principal`
column has not yet been written by `analyze_categories`, the time trend is
absent (`None`), while it can be present after `analyze_categories` runs. -/
theorem C3_commute_amended (df : DataFrame) (sw : List String) :
    analyze_sources (analyze_categories df).2 = analyze_sources df ∧
    analyze_sources (analyze_time_trends df).2 = analyze_sources df ∧
    create_wordcloud sw (analyze_categories df).2 = create_wordcloud sw df ∧
    create_wordcloud sw (analyze_time_trends df).2 = create_wordcloud sw df ∧
    (analyze_categories (analyze_time_trends df).2).1 = (analyze_categories df).1 ∧
    (df.hasData = true → df.hasCategoriaPrincipal = false →
      (analyze_time_trends df).1 = none) := by
  refine ⟨?_, ?_, ?_, ?_, ?_, ?_⟩
  · by_cases h : df.hasCategoriaBabi <;>
      simp [analyze_categories, analyze_sources, h, List.map_map, Function.comp_def]
  · simp only [analyze_time_trends]
    split_ifs <;> simp [analyze_sources, List.map_map, Function.comp_def]
  · by_cases h : df.hasCategoriaBabi <;>
      simp [analyze_categories, create_wordcloud, h, List.map_map, Function.comp_def]
  · simp only [analyze_time_trends]
    split_ifs <;> simp [create_wordcloud, List.map_map, Function.comp_def]
  · simp only [analyze_time_trends]
    split_ifs <;>
      by_cases h : df.hasCategoriaBabi <;>
        simp [analyze_categories, h, List.map_map, Function.comp_def]
  · intro h1 h3
    simp only [analyze_time_trends, h1, if_true]
    split_ifs with h4 h5
    · simp [trendOf, h3]
    · rfl
    · simp [trendOf, h3]

/-- Length of a `filterMap` as a `countP`. -/
theorem length_filterMap {α β : Type} (f : α → Option β) (l : List α) :
    (l.filterMap f).length = l.countP fun a => (f a).isSome := by
  induction l with
  | nil => rfl
  | cons a l ih =>
    cases h : f a <;> simp [List.filterMap_cons, h, List.countP_cons, ih]

/-- Converting a `data` cell to datetime does not change the day it falls
on. -/
theorem cellDate_map_inr (c : Option DateCell) :
    cellDate ((cellDate c).map Sum.inr) = cellDate c := by
  cases c with
  | none => rfl
  | some dc =>
    cases dc with
    | inl s => cases h : parseDate s <;> simp [cellDate, h]
    | inr d => rfl

/-- C4 counterexample: `dfBadDate` has two records with parsable dates, yet
`analyze_time_trends` returns no time series at all (`None`) rather than
the entries for those two records. -/
theorem C4_unparsable_cex :
    (dfBadDate.rows.countP fun r => (cellDate r.data).isSome) = 2 ∧
    (analyze_time_trends dfBadDate).1 = none := by
  exact ⟨by decide, rfl⟩

/-- C4 amended: `analyze_time_trends` never raises, but one record with an
unparsable (present) date makes the whole time-series aggregate absent
(`None`); only records with absent (`NaN`) dates or absent facet are merely
excluded — when every present date is parsable, the aggregate is returned
and its counts sum over exactly the records with a present date and a
present facet. -/
theorem C4_unparsable_amended (df : DataFrame) (hd : df.hasData = true)
    (hdt : df.dataIsDatetime = false) (hcp : df.hasCategoriaPrincipal = true) :
    ((∃ r ∈ df.rows, rawDateUnparsable r = true) →
      (analyze_time_trends df).1 = none) ∧
    ((∀ r ∈ df.rows, rawDateUnparsable r = false) →
      ∃ tt, (analyze_time_trends df).1 = some tt ∧
        countSum tt = df.rows.countP fun r =>
          (cellDate r.data).isSome && r.categoria_principal.isSome) := by
  constructor
  · intro he
    have hany : df.rows.any rawDateUnparsable = true := List.any_eq_true.2 he
    simp [analyze_time_trends, hd, hdt, hany]
  · intro ha
    have hany : df.rows.any rawDateUnparsable = false := by
      rw [List.any_eq_false]
      intro r hr
      simp [ha r hr]
    refine ⟨tally ((df.rows.map fun r =>
        { r with data := (cellDate r.data).map Sum.inr }).filterMap fun r =>
          match cellDate r.data, r.categoria_principal with
          | some d, some c => some (d, c)
          | _, _ => none), ?_, ?_⟩
    · simp [analyze_time_trends, hd, hdt, hany, trendOf, hcp]
    · rw [countSum, tally_sum, length_filterMap, List.countP_map]
      apply List.countP_congr
      intro r _
      simp only [Function.comp_apply]
      rw [cellDate_map_inr]
      rcases hc : cellDate r.data with _ | d <;>
        rcases hp : r.categoria_principal with _ | c <;> simp [hc, hp]

/-- Witness for C3 amended at `dfB1` (and the empty stop-word list). -/
theorem C3_commute_amended_witness :
    analyze_sources (analyze_categories dfB1).2 = analyze_sources dfB1 ∧
    (analyze_time_trends dfB1).1 = none :=
  ⟨(C3_commute_amended dfB1 []).1,
    (C3_commute_amended dfB1 []).2.2.2.2.2 rfl rfl⟩

/-- Witness for C4 amended at `dfBadDate` (absent aggregate) and `dfGood`
(all dates parsable). -/
theorem C4_unparsable_amended_witness :
    (analyze_time_trends dfBadDate).1 = none ∧
    ∃ tt, (analyze_time_trends dfGood).1 = some tt ∧
      countSum tt = dfGood.rows.countP fun r =>
        (cellDate r.data).isSome && r.categoria_principal.isSome :=
  ⟨(C4_unparsable_amended dfBadDate rfl rfl rfl).1
      ⟨rowDT (some "not-a-date") (some "I"), by decide, by decide⟩,
    (C4_unparsable_amended dfGood rfl rfl rfl).2 (by decide)⟩

/-- C5 counterexample: the derived facet is not upper-cased — on the code
`b1` the facet tallied by `analyze_categories` is `b`, not `B`. -/
theorem C5_facet_upper_cex :
    (analyze_categories dfLowerB).1.1 = some [("b", 1)] ∧
    (analyze_categories dfLowerB).1.1 ≠ some [("B", 1)] := by
  exact ⟨rfl, by decide⟩

/-- C5 amended: the facet is the first character of `classification_code`
taken verbatim (no upper-casing); absent or empty codes yield an absent
facet, no error is raised, and facet aggregates only ever count present
facet values. -/
theorem C5_facet_amended :
    (∀ s : String, s ≠ "" → strGet0 (some s) = some (s.take 1)) ∧
    strGet0 (some "") = none ∧ strGet0 none = none ∧
    ∀ cells : List Cell, ∀ p ∈ value_counts cells, some p.1 ∈ cells := by
  refine ⟨?_, rfl, rfl, ?_⟩
  · intro s hs
    simp [strGet0, hs]
  · intro cells p hp
    exact value_counts_key hp

/-- Witness for C5 amended at the code `b1` and a one-cell column. -/
theorem C5_facet_amended_witness :
    strGet0 (some "b1") = some (String.take "b1" 1) ∧
    some (("B", 1) : String × Nat).1 ∈ ([some "B"] : List Cell) :=
  ⟨C5_facet_amended.1 "b1" (by decide),
    C5_facet_amended.2.2.2 [some "B"] ("B", 1) (by decide)⟩

/-- C6 counterexample: a record with `classification_code = ""` is counted
in the table length and is excluded from the facet counts, but it does
contribute to the subcategory counts (under the key `""`), with the
subcategory counts summing to the full table length. -/
theorem C6_empty_code_cex :
    dfEmptyCode.rows.length = 1 ∧
    (analyze_categories dfEmptyCode).1.1 = some [] ∧
    (analyze_categories dfEmptyCode).1.2 = some [("", 1)] ∧
    countSum [(("" : String), 1)] = dfEmptyCode.rows.length := by
  exact ⟨rfl, rfl, rfl, rfl⟩

/-- C6 amended: a record with the empty classification code counts towards
the table length, is excluded from the facet counts (their sum stays
strictly below the table length), but is tallied verbatim under the key
`""` in the subcategory counts. -/
theorem C6_empty_code_amended (df : DataFrame) (h : df.hasCategoriaBabi = true)
    (r : Row) (hr : r ∈ df.rows) (he : r.categoria_babi = some "") :
    ∃ cc sc, (analyze_categories df).1 = (some cc, some sc) ∧
      countSum cc < df.rows.length ∧
      ∃ n, 0 < n ∧ ("", n) ∈ sc := by
  have hmap :
      ((df.rows.map fun x =>
          { x with categoria_principal := strGet0 x.categoria_babi }).map
        (·.categoria_principal)) =
      df.rows.map fun x => strGet0 x.categoria_babi := by
    rw [List.map_map]
    rfl
  have hmap2 :
      ((df.rows.map fun x =>
          { x with categoria_principal := strGet0 x.categoria_babi }).map
        (·.categoria_babi)) =
      df.rows.map (·.categoria_babi) := by
    rw [List.map_map]
    rfl
  refine ⟨value_counts (df.rows.map fun x => strGet0 x.categoria_babi),
    value_counts (df.rows.map (·.categoria_babi)), ?_, ?_, ?_⟩
  · simp [analyze_categories, h, hmap, hmap2]
  · rw [value_counts_sum, List.countP_map]
    refine lt_of_le_of_ne (List.countP_le_length _) fun hEq => ?_
    have := List.countP_eq_length.1 hEq r hr
    simp [Function.comp, he, strGet0] at this
  · have hmem : ("" : String) ∈ (df.rows.map (·.categoria_babi)).filterMap id :=
      mem_filterMap_id.2 (List.mem_map.2 ⟨r, hr, he⟩)
    exact ⟨_, List.count_pos_iff.2 hmem, tally_mem hmem⟩

/-- Witness for C6 amended at the concrete table `dfEmptyCode`. -/
theorem C6_empty_code_amended_witness :
    ∃ cc sc, (analyze_categories dfEmptyCode).1 = (some cc, some sc) ∧
      countSum cc < dfEmptyCode.rows.length ∧
      ∃ n, 0 < n ∧ ("", n) ∈ sc :=
  C6_empty_code_amended dfEmptyCode rfl
    (sampleRow (some "2024-02-01") none none (some "")) (by decide) rfl

/-- C7: every token of the word list built inside `create_wordcloud` is
absent from the configured stop-word set, is not the empty token, and is
lower-cased. -/
theorem C7_tokens_clean (sw : List String) (df : DataFrame) (ws : List String)
    (h : create_wordcloud sw df = some ws) :
    ∀ t ∈ ws, t ∉ sw ∧ t ≠ "" ∧ t.toLower = t := by
  intro t ht
  by_cases hcol : df.hasTitulo
  · simp only [create_wordcloud, hcol, if_true] at h
    by_cases hw : buildWords sw
        (String.intercalate " " (df.rows.map fun r => astypeStr r.titulo)) = []
    · rw [if_pos hw] at h
      cases h
    · rw [if_neg hw] at h
      injection h with h
      subst h
      rcases mem_buildWords ht with ⟨w, hwmem, hnsw, hteq⟩
      subst hteq
      refine ⟨hnsw, pyLower_ne_empty (findallWords_ne_empty hwmem), ?_⟩
      rw [string_toLower_mk, pyLower_idem]
  · simp [create_wordcloud, hcol] at h

/-- Witness for C7 at `dfB1` with the stop-word list `["em"]`. -/
theorem C7_tokens_clean_witness :
    create_wordcloud ["em"] dfB1 = some ["economia", "alta"] ∧
    ("economia" ∉ (["em"] : List String) ∧ "economia" ≠ "" ∧
      "economia".toLower = "economia") := by
  have h : create_wordcloud ["em"] dfB1 = some ["economia", "alta"] := by decide
  exact ⟨h, C7_tokens_clean ["em"] dfB1 ["economia", "alta"] h "economia" (by decide)⟩

/-- C8 counterexample: on the empty table, the word-frequency aggregate is
absent (`None`, because `WordCloud.generate` raises on zero words and the
handler returns `None`), not an empty structure. -/
theorem C8_empty_table_cex :
    dfEmpty.rows.length = 0 ∧ create_wordcloud [] dfEmpty = none := by
  exact ⟨rfl, rfl⟩

/-- C8 amended: on the empty table the facet, subcategory and source counts
are empty mappings and the time trend (computed, as in the program flow,
after `analyze_categories` has added the facet column) is an empty
sequence; the word-cloud aggregate however is absent (`None`), not an empty
structure. -/
theorem C8_empty_table_amended :
    (analyze_categories dfEmpty).1 = (some [], some []) ∧
    analyze_sources dfEmpty = some [] ∧
    (analyze_time_trends (analyze_categories dfEmpty).2).1 = some [] ∧
    ∀ sw : List String, create_wordcloud sw dfEmpty = none := by
  refine ⟨rfl, rfl, rfl, ?_⟩
  intro sw
  have h1 : findallWords (String.intercalate " " ([] : List String)) = [] := by
    decide
  simp [create_wordcloud, dfEmpty, dfB1, h1, buildWords]

/-- C9 counterexample: a record with an absent source is silently dropped
by `analyze_sources` — there is no `"unknown"` bucket at all and the source
counts sum to 0, not to the table size 1. -/
theorem C9_source_unknown_cex :
    dfNoFonte.rows.length = 1 ∧
    analyze_sources dfNoFonte = some [] ∧
    countSum ([] : List (String × Nat)) ≠ dfNoFonte.rows.length := by
  exact ⟨rfl, rfl, by decide⟩

/-- C9 amended: `analyze_sources` tallies raw source values verbatim
(empty-string sources under their own `""` key), drops records with an
absent (`NaN`) source, and its counts sum to the number of records with a
present source — at most, not always equal to, the table size. -/
theorem C9_source_amended (df : DataFrame) (h : df.hasFonte = true) :
    ∃ cc, analyze_sources df = some cc ∧
      countSum cc = df.rows.countP (·.fonte.isSome) ∧
      countSum cc ≤ df.rows.length ∧
      (∀ p ∈ cc, some p.1 ∈ df.rows.map (·.fonte)) ∧
      ∀ r ∈ df.rows, ∀ s, r.fonte = some s → ∃ n, 0 < n ∧ (s, n) ∈ cc := by
  refine ⟨value_counts (df.rows.map (·.fonte)), by simp [analyze_sources, h],
    ?_, ?_, ?_, ?_⟩
  · rw [value_counts_sum, List.countP_map]
    rfl
  · rw [value_counts_sum, List.countP_map]
    exact List.countP_le_length _
  · intro p hp
    exact value_counts_key hp
  · intro r hr s hs
    have hm : s ∈ (df.rows.map (·.fonte)).filterMap id :=
      mem_filterMap_id.2 (List.mem_map.2 ⟨r, hr, hs⟩)
    exact ⟨_, List.count_pos_iff.2 hm, tally_mem hm⟩

/-- Witness for C9 amended at the concrete table `dfB1`. -/
theorem C9_source_amended_witness :
    ∃ cc, analyze_sources dfB1 = some cc ∧
      countSum cc = dfB1.rows.countP (·.fonte.isSome) ∧
      countSum cc ≤ dfB1.rows.length ∧
      (∀ p ∈ cc, some p.1 ∈ dfB1.rows.map (·.fonte)) ∧
      ∀ r ∈ dfB1.rows, ∀ s, r.fonte = some s → ∃ n, 0 < n ∧ (s, n) ∈ cc :=
  C9_source_amended dfB1 rfl

/-- C10: `get_ai_response` always returns a string (it is a total
function); with an empty API key it returns the fixed instruction message
without consulting the chat service (the result is the same for every
service), and otherwise a raising chat call is caught and rendered as an
error-message string while a successful call's content is returned. -/
theorem C10_ai_response_total (p c : String) (chat chat' : ChatService) :
    get_ai_response p c "" chat = apiKeyMsg ∧
    get_ai_response p c "" chat = get_ai_response p c "" chat' ∧
    (∀ k, k ≠ "" → ∀ e, chat babiSystemPrompt (fullPrompt p c) = Except.error e →
      get_ai_response p c k chat = "Erro ao comunicar com a API: " ++ e) ∧
    (∀ k, k ≠ "" → ∀ s, chat babiSystemPrompt (fullPrompt p c) = Except.ok s →
      get_ai_response p c k chat = s) := by
  refine ⟨rfl, rfl, ?_, ?_⟩
  · intro k hk e he
    simp [get_ai_response, hk, he]
  · intro k hk s hs
    simp [get_ai_response, hk, hs]

/-- Witness for C10 at concrete inputs and the always-raising service. -/
theorem C10_ai_response_total_witness :
    get_ai_response "q" "ctx" "" chatBoom = apiKeyMsg ∧
    get_ai_response "q" "ctx" "key" chatBoom =
      "Erro ao comunicar com a API: " ++ "boom" :=
  ⟨(C10_ai_response_total "q" "ctx" chatBoom chatBoom).1,
    (C10_ai_response_total "q" "ctx" chatBoom chatBoom).2.2.1 "key"
      (by decide) "boom" rfl⟩
